import Mathlib

/-!
# Verification of the vgmp JNI playback engine glue layer

A shallow embedding of `app/src/main/cpp/vgmplayer_jni.cpp`: the global
player state becomes an explicit `EngineState` record, each exported JNI
function becomes a Lean function on that state, and the five native
synthesis libraries (libvgm, libgme, libopenmpt, libkss, libADLMIDI) are
modelled at their call boundary by an `Env` oracle that supplies the
outcome of each library call.  Machine integers are modelled as `Nat`/`Int`
(C truncating division is `Int.tdiv`; the arithmetic right shift on a
signed 32-bit value is floor division `Int.fdiv`); `double` values that the
glue code only stores, passes through and compares are modelled as `Rat`.
-/

namespace Vgmp

/-- `enum class PlayerType` from vgmplayer_jni.cpp. -/
inductive PlayerType
  | NONE | LIBVGM | LIBGME | LIBOPENMPT | LIBKSS | LIBADLMIDI
deriving DecidableEq, Repr

/-! ## Format classifier (isGmeFormat / isKssFormat / isOpenmptFormat / isMidiFormat) -/

/-- ASCII `tolower` as applied to each extension character. -/
def asciiToLower (c : Char) : Char :=
  if 'A' ≤ c ∧ c ≤ 'Z' then Char.ofNat (c.toNat + 32) else c

/-- Characters after the last dot of the path (`strrchr(path, '.')`);
`none` when the path has no dot. -/
def lastExtChars (path : String) : Option (List Char) :=
  let cs := path.data
  if '.' ∈ cs then some ((cs.reverse.takeWhile (fun c => c ≠ '.')).reverse)
  else none

/-- The `lowerExt` buffer: first 7 extension characters, lower-cased
(`char lowerExt[8]` filled by the `tolower` loop). -/
def lowerExt (path : String) : Option String :=
  (lastExtChars path).map (fun e => String.mk ((e.take 7).map asciiToLower))

/-- The `strcmp` chain of `isGmeFormat` on the lower-cased extension. -/
def isGmeExt (e : String) : Bool :=
  e == "nsf" || e == "nsfe" || e == "gbs" || e == "gym" ||
  e == "hes" || e == "ay" || e == "sap" || e == "spc"

/-- The `strcmp` chain of `isKssFormat`. -/
def isKssExt (e : String) : Bool :=
  e == "kss" || e == "mgs" || e == "bgm" || e == "opx" || e == "mpk" || e == "mbm"

/-- The `strcmp` chain of `isOpenmptFormat`. -/
def isOpenmptExt (e : String) : Bool :=
  e == "mod" || e == "xm" || e == "s3m" || e == "it" || e == "mptm" ||
  e == "669" || e == "amf" || e == "ams" || e == "dbm" || e == "digi" ||
  e == "dmf" || e == "dsm" || e == "far" || e == "gdm" || e == "imf" ||
  e == "j2b" || e == "mdl" || e == "med" || e == "mt2" || e == "mtm" ||
  e == "okt" || e == "plm" || e == "psm" || e == "ptm" || e == "rtm" ||
  e == "stm" || e == "ult" || e == "umx" || e == "wow"

/-- The `strcmp` chain of `isMidiFormat`. -/
def isMidiExt (e : String) : Bool :=
  e == "mid" || e == "midi" || e == "rmi" || e == "smf"

/-- `isGmeFormat`. -/
def isGmeFormat (path : String) : Bool :=
  match lowerExt path with
  | none => false
  | some e => isGmeExt e

/-- `isKssFormat`. -/
def isKssFormat (path : String) : Bool :=
  match lowerExt path with
  | none => false
  | some e => isKssExt e

/-- `isOpenmptFormat`. -/
def isOpenmptFormat (path : String) : Bool :=
  match lowerExt path with
  | none => false
  | some e => isOpenmptExt e

/-- `isMidiFormat`. -/
def isMidiFormat (path : String) : Bool :=
  match lowerExt path with
  | none => false
  | some e => isMidiExt e

/-! ## Backend handle models -/

/-- One entry of `gme_info_t` (lengths in milliseconds; `Option String`
for the possibly-null tag pointers). -/
structure GmeInfo where
  playLength : Int
  introLength : Int
  loopLength : Int
  song : Option String
  game : Option String
  systemName : Option String
  author : Option String
  copyright : Option String
  dumper : Option String
  comment : Option String

/-- Result of a successful `gme_open_file`: the immutable file-derived data
of the emulator, plus which `gme_start_track` calls would fail. -/
structure GmeFile where
  trackCount : Int
  infos : List GmeInfo
  voiceNames : List String
  startFails : Int → Bool

/-- A live `Music_Emu *` (libgme handle).  A freshly opened emulator has
tempo 1, silence detection on and the autoload playback limit enabled. -/
structure GmeState where
  trackCount : Int
  infos : List GmeInfo
  voiceNames : List String
  startFails : Int → Bool
  startedTrack : Int
  tempo : Rat
  ignoreSilence : Bool
  autoloadLimitOff : Bool
  trackEnded : Bool
  posMs : Int

/-- The `gme_open_file` + `gme_start_track(0)` result handle. -/
def freshGme (f : GmeFile) : GmeState :=
  { trackCount := f.trackCount, infos := f.infos, voiceNames := f.voiceNames,
    startFails := f.startFails, startedTrack := 0, tempo := 1,
    ignoreSilence := false, autoloadLimitOff := false,
    trackEnded := false, posMs := 0 }

/-- `gme_track_info(emu, &info, idx)`: `none` models a nonzero error return. -/
def gmeInfoAt (g : GmeState) (idx : Int) : Option GmeInfo :=
  if 0 ≤ idx then g.infos.get? idx.toNat else none

/-- One entry of `gKss->info` (a `KSSINFO`): song number, time in ms, title. -/
structure KssSongInfo where
  song : Int
  timeInMs : Int
  title : String

/-- A `KSS *` data object as produced by `KSS_bin2kss`. -/
structure KssState where
  trkMin : Int
  trkMax : Int
  mode : Nat
  title : String
  info : List KssSongInfo

/-- A live `KSSPLAY *` handle. -/
structure KssPlayState where
  track : Int
  speed : Rat
  stopFlag : Bool

/-- An `openmpt_module *`: the metadata the glue layer queries, plus the
playback position in seconds. -/
structure MptState where
  title : Option String
  message : Option String
  tracker : Option String
  artist : Option String
  date : Option String
  posSeconds : Rat

/-- An `ADL_MIDIPlayer *`: total length and position in seconds. -/
structure AdlState where
  totalSeconds : Rat
  posSeconds : Rat

/-- The `VGM_HEADER` fields read by the GD3 tag parser. -/
structure VgmHeader where
  gd3Ofs : Nat
  eofOfs : Nat

/-- One device row of `GetSongDeviceInfo` (`PLR_DEV_INFO`). -/
structure VgmDev where
  id : Int
  name : String
  volume : Int

/-- The file-derived data of a loaded `VGMPlayer`. -/
structure VgmFile where
  hdr : VgmHeader
  lengthSamples : Int
  devices : List VgmDev
  devOk : Bool

/-- A live `VGMPlayer *`.  A freshly constructed player has playback
speed 1; `nOpen` calls `Start()` on it. -/
structure VgmState where
  sampleRate : Nat
  speed : Rat
  started : Bool
  stateEnd : Bool
  lengthSamples : Int
  curSample : Int
  hdr : VgmHeader
  devices : List VgmDev
  devOk : Bool

/-! ## Engine state: the file-scope globals of vgmplayer_jni.cpp -/

/-- The mutable globals of the glue layer gathered into one record. -/
structure EngineState where
  playerType : PlayerType
  vgmPlayer : Option VgmState
  gmePlayer : Option GmeState
  openmptModule : Option MptState
  kss : Option KssState
  kssPlay : Option KssPlayState
  adlPlayer : Option AdlState
  loader : Option (List Nat)
  sampleRate : Nat
  romPath : String
  gmeTrackIndex : Int
  gmeTrackCount : Int
  kssTrackIndex : Int
  kssTrackCount : Int
  endlessLoopMode : Bool
  playbackSpeed : Rat
  fftRing : List Rat
  fftWriteIdx : Nat

/-- The globals' static initializers. -/
def initState : EngineState :=
  { playerType := .NONE, vgmPlayer := none, gmePlayer := none,
    openmptModule := none, kss := none, kssPlay := none, adlPlayer := none,
    loader := none, sampleRate := 44100, romPath := "",
    gmeTrackIndex := 0, gmeTrackCount := 0,
    kssTrackIndex := 0, kssTrackCount := 0,
    endlessLoopMode := false, playbackSpeed := 1,
    fftRing := List.replicate 1024 0, fftWriteIdx := 0 }

/-! ## Environment oracle for the native library calls -/

/-- Outcomes of the native library calls and of file I/O, per input. -/
structure Env where
  gmeOpen : String → Nat → Option GmeFile
  fileRead : String → Option (List Nat)
  kssBin2kss : List Nat → String → Option KssState
  kssplayNewOk : Bool
  mptCreate : List Nat → Option MptState
  adlInitOk : Bool
  adlOpen : String → Option AdlState
  loaderLoad : String → Option (List Nat)
  vgmLoadFile : List Nat → Option VgmFile

/-- `strrchr(path, '/')` basename extraction used for `KSS_bin2kss`. -/
def basename (path : String) : String :=
  let cs := path.data
  if '/' ∈ cs then String.mk ((cs.reverse.takeWhile (fun c => c ≠ '/')).reverse)
  else path

/-! ## cleanup and nOpen -/

/-- `cleanup()`: tears down every backend handle, resets the type tag and
track bookkeeping, clears the FFT ring buffer.  `gEndlessLoopMode`,
`gPlaybackSpeed`, `gSampleRate` and `gRomPath` are deliberately untouched. -/
def cleanup (s : EngineState) : EngineState :=
  { s with
    vgmPlayer := none, gmePlayer := none, openmptModule := none,
    kss := none, kssPlay := none, adlPlayer := none,
    playerType := .NONE,
    gmeTrackIndex := 0, gmeTrackCount := 0,
    kssTrackIndex := 0, kssTrackCount := 0,
    loader := none,
    fftRing := List.replicate 1024 0, fftWriteIdx := 0 }

/-- `nOpen`: classify the path, construct the matching backend; every
failure path returns `false` with the session left as `cleanup` produced
it (all partially constructed handles released, per the source). -/
def nOpen (env : Env) (path : String) (s0 : EngineState) : Bool × EngineState :=
  let s := cleanup s0
  if isGmeFormat path then
    match env.gmeOpen path s.sampleRate with
    | none => (false, s)
    | some gf =>
      let s1 := { s with
                  playerType := .LIBGME, gmePlayer := some (freshGme gf),
                  gmeTrackCount := gf.trackCount, gmeTrackIndex := 0 }
      if gf.startFails 0 then
        (false, { s1 with gmePlayer := none, playerType := .NONE })
      else (true, s1)
  else if isKssFormat path then
    match env.fileRead path with
    | none => (false, s)
    | some bytes =>
      match env.kssBin2kss bytes (basename path) with
      | none => (false, s)
      | some k =>
        if env.kssplayNewOk = false then (false, s)
        else
          let cnt := if k.trkMax - k.trkMin + 1 < 1 then 1 else k.trkMax - k.trkMin + 1
          (true, { s with
                   kss := some k,
                   kssPlay := some { track := k.trkMin, speed := 1, stopFlag := false },
                   kssTrackCount := cnt, kssTrackIndex := k.trkMin,
                   playerType := .LIBKSS })
  else if isOpenmptFormat path then
    match env.fileRead path with
    | none => (false, s)
    | some bytes =>
      match env.mptCreate bytes with
      | none => (false, s)
      | some m => (true, { s with openmptModule := some m, playerType := .LIBOPENMPT })
  else if isMidiFormat path then
    if env.adlInitOk = false then (false, s)
    else
      match env.adlOpen path with
      | none => (false, s)
      | some a => (true, { s with adlPlayer := some a, playerType := .LIBADLMIDI })
  else
    match env.loaderLoad path with
    | none => (false, s)
    | some bytes =>
      match env.vgmLoadFile bytes with
      | none => (false, s)
      | some vf =>
        let v : VgmState :=
          { sampleRate := s.sampleRate, speed := 1,
            started := true, stateEnd := false,
            lengthSamples := vf.lengthSamples, curSample := 0,
            hdr := vf.hdr, devices := vf.devices, devOk := vf.devOk }
        (true, { s with
                 loader := some bytes,
                 vgmPlayer := some v,
                 playerType := .LIBVGM })

/-- `nClose`. -/
def nClose (s : EngineState) : EngineState := cleanup s

@[simp] theorem cleanup_playerType (s : EngineState) : (cleanup s).playerType = .NONE := rfl

@[simp] theorem cleanup_vgmPlayer (s : EngineState) : (cleanup s).vgmPlayer = none := rfl

@[simp] theorem cleanup_gmePlayer (s : EngineState) : (cleanup s).gmePlayer = none := rfl

@[simp] theorem cleanup_openmptModule (s : EngineState) : (cleanup s).openmptModule = none := rfl

@[simp] theorem cleanup_kss (s : EngineState) : (cleanup s).kss = none := rfl

@[simp] theorem cleanup_kssPlay (s : EngineState) : (cleanup s).kssPlay = none := rfl

@[simp] theorem cleanup_adlPlayer (s : EngineState) : (cleanup s).adlPlayer = none := rfl

@[simp] theorem cleanup_loader (s : EngineState) : (cleanup s).loader = none := rfl

@[simp] theorem cleanup_sampleRate (s : EngineState) : (cleanup s).sampleRate = s.sampleRate := rfl

@[simp] theorem cleanup_romPath (s : EngineState) : (cleanup s).romPath = s.romPath := rfl

@[simp] theorem cleanup_endlessLoopMode (s : EngineState) :
    (cleanup s).endlessLoopMode = s.endlessLoopMode := rfl

@[simp] theorem cleanup_playbackSpeed (s : EngineState) :
    (cleanup s).playbackSpeed = s.playbackSpeed := rfl

@[simp] theorem cleanup_gmeTrackIndex (s : EngineState) : (cleanup s).gmeTrackIndex = 0 := rfl

@[simp] theorem cleanup_kssTrackIndex (s : EngineState) : (cleanup s).kssTrackIndex = 0 := rfl

/-- `nPlay`: only the libvgm backend distinguishes play; it re-pushes the
sample rate and calls `Start()`. -/
def nPlay (s : EngineState) : EngineState :=
  match s.playerType, s.vgmPlayer with
  | .LIBVGM, some v =>
    { s with vgmPlayer := some { v with sampleRate := s.sampleRate, started := true } }
  | _, _ => s

/-- `nStop`. -/
def nStop (s : EngineState) : EngineState :=
  match s.playerType, s.vgmPlayer with
  | .LIBVGM, some v => { s with vgmPlayer := some { v with started := false } }
  | _, _ => s

/-! ## Transport queries and settings -/

/-- `nIsEnded`: endless-loop mode short-circuits to false; otherwise each
backend's native end signal; the final fall-through returns true. -/
def nIsEnded (s : EngineState) : Bool :=
  if s.endlessLoopMode then false
  else
    match s.playerType with
    | .LIBVGM => match s.vgmPlayer with
      | some v => v.stateEnd
      | none => true
    | .LIBGME => match s.gmePlayer with
      | some g => g.trackEnded
      | none => true
    | .LIBOPENMPT => match s.openmptModule with
      | some _ => false
      | none => true
    | .LIBKSS => match s.kssPlay with
      | some kp => kp.stopFlag
      | none => true
    | .LIBADLMIDI => match s.adlPlayer with
      | some a => decide (a.totalSeconds > 0 ∧ a.posSeconds ≥ a.totalSeconds)
      | none => true
    | .NONE => true

/-- `nSetEndlessLoop`: stores the sticky flag; on a live libgme handle also
toggles silence-ignore and the autoload playback limit. -/
def nSetEndlessLoop (enabled : Bool) (s : EngineState) : EngineState :=
  let s1 := { s with endlessLoopMode := enabled }
  match s1.playerType, s1.gmePlayer with
  | .LIBGME, some g =>
    { s1 with gmePlayer := some { g with ignoreSilence := enabled, autoloadLimitOff := enabled } }
  | _, _ => s1

/-- `nGetEndlessLoop`. -/
def nGetEndlessLoop (s : EngineState) : Bool := s.endlessLoopMode

/-- The `if (LIBVGM && gVgmPlayer)` arm of `nSetPlaybackSpeed`. -/
def setSpeedVgm (speed : Rat) (s : EngineState) : EngineState :=
  match s.playerType, s.vgmPlayer with
  | .LIBVGM, some v => { s with vgmPlayer := some { v with speed := speed } }
  | _, _ => s

/-- The `if (LIBGME && gGmePlayer)` arm of `nSetPlaybackSpeed`. -/
def setSpeedGme (speed : Rat) (s : EngineState) : EngineState :=
  match s.playerType, s.gmePlayer with
  | .LIBGME, some g => { s with gmePlayer := some { g with tempo := speed } }
  | _, _ => s

/-- The `if (LIBKSS && gKssPlay)` arm of `nSetPlaybackSpeed`. -/
def setSpeedKss (speed : Rat) (s : EngineState) : EngineState :=
  match s.playerType, s.kssPlay with
  | .LIBKSS, some kp => { s with kssPlay := some { kp with speed := speed } }
  | _, _ => s

/-- `nSetPlaybackSpeed`: stores the sticky multiplier, then the three
backend arms run in the order of the source. -/
def nSetPlaybackSpeed (speed : Rat) (s : EngineState) : EngineState :=
  setSpeedKss speed (setSpeedGme speed (setSpeedVgm speed { s with playbackSpeed := speed }))

/-- `nGetPlaybackSpeed`. -/
def nGetPlaybackSpeed (s : EngineState) : Rat := s.playbackSpeed

/-- `nSetSampleRate`: stores the rate and pushes it into a live VGMPlayer
(the null check is on the handle alone). -/
def nSetSampleRate (rate : Nat) (s : EngineState) : EngineState :=
  { s with
    sampleRate := rate,
    vgmPlayer := s.vgmPlayer.map (fun v => { v with sampleRate := rate }) }

/-- `nSetRomPath`. -/
def nSetRomPath (p : String) (s : EngineState) : EngineState :=
  { s with romPath := p }

/-! ## Duration estimation -/

/-- The libgme length heuristic shared by `nGetTotalSamples`,
`nGetTrackLengthDirect` and `nGetTrackLength`: prefer intro + 2×loop when
both are positive, then floor short estimates to the 180000 ms default. -/
def gmeLenMs (i : GmeInfo) : Int :=
  let lengthMs := if i.introLength > 0 ∧ i.loopLength > 0
    then i.introLength + i.loopLength * 2
    else i.playLength
  if lengthMs < 30000 then 180000 else lengthMs

/-- `(jlong)length_ms * gSampleRate / 1000` (C truncating division). -/
def msToSamples (ms : Int) (rate : Nat) : Int :=
  Int.tdiv (ms * (rate : Int)) 1000

/-- `(jlong)` cast of a nonnegative-or-negative `double`: C truncation
toward zero. -/
def ratTrunc (q : Rat) : Int := Int.tdiv q.num (q.den : Int)

/-- `nGetTotalSamples`. -/
def nGetTotalSamples (s : EngineState) : Int :=
  match s.playerType with
  | .LIBVGM => match s.vgmPlayer with
    | some v => v.lengthSamples
    | none => 0
  | .LIBGME => match s.gmePlayer with
    | some g =>
      (match gmeInfoAt g s.gmeTrackIndex with
       | some i => msToSamples (gmeLenMs i) s.sampleRate
       | none => 0)
    | none => 0
  | .LIBOPENMPT => match s.openmptModule with
    | some _ => (180 : Int) * (s.sampleRate : Int)
    | none => 0
  | .LIBKSS => match s.kss with
    | some k =>
      if k.info.isEmpty = false then
        match k.info.find? (fun e => decide (e.song = s.kssTrackIndex ∧ e.timeInMs > 0)) with
        | some e => msToSamples e.timeInMs s.sampleRate
        | none => (180 : Int) * (s.sampleRate : Int)
      else (180 : Int) * (s.sampleRate : Int)
    | none => 0
  | .LIBADLMIDI => match s.adlPlayer with
    | some a =>
      if a.totalSeconds > 0 then ratTrunc (a.totalSeconds * (s.sampleRate : Nat))
      else (180 : Int) * (s.sampleRate : Int)
    | none => 0
  | .NONE => 0

/-- `nGetCurrentSample`. -/
def nGetCurrentSample (s : EngineState) : Int :=
  match s.playerType with
  | .LIBVGM => match s.vgmPlayer with
    | some v => v.curSample
    | none => 0
  | .LIBGME => match s.gmePlayer with
    | some g => Int.tdiv (g.posMs * (s.sampleRate : Int)) 1000
    | none => 0
  | .LIBOPENMPT => match s.openmptModule with
    | some m => ratTrunc (m.posSeconds * (s.sampleRate : Nat))
    | none => 0
  | .LIBKSS => match s.kssPlay with
    | some _ => 0
    | none => 0
  | .LIBADLMIDI => match s.adlPlayer with
    | some a => ratTrunc (a.posSeconds * (s.sampleRate : Nat))
    | none => 0
  | .NONE => 0

/-- Wrap to a signed 32-bit value (the `(int)` narrowing in `nSeek`). -/
def wrapI32 (x : Int) : Int := Int.emod (x + 2147483648) 4294967296 - 2147483648

/-- Wrap to an unsigned 32-bit value (the `(UINT32)` cast in `nSeek`). -/
def wrapU32 (x : Int) : Int := Int.emod x 4294967296

/-- The libvgm arm of `nSeek` (`Seek(PLAYPOS_SAMPLE, (UINT32)samplePos)`). -/
def seekVgm (samplePos : Int) (s : EngineState) : EngineState :=
  match s.playerType, s.vgmPlayer with
  | .LIBVGM, some v => { s with vgmPlayer := some { v with curSample := wrapU32 samplePos } }
  | _, _ => s

/-- The libgme arm of `nSeek` (`gme_seek` in truncated milliseconds). -/
def seekGme (samplePos : Int) (s : EngineState) : EngineState :=
  match s.playerType, s.gmePlayer with
  | .LIBGME, some g =>
    { s with
      gmePlayer := some { g with posMs := wrapI32 (Int.tdiv (samplePos * 1000) (s.sampleRate : Int)) } }
  | _, _ => s

/-- The libopenmpt arm of `nSeek` (`set_position_seconds`). -/
def seekMpt (samplePos : Int) (s : EngineState) : EngineState :=
  match s.playerType, s.openmptModule with
  | .LIBOPENMPT, some m =>
    { s with
      openmptModule := some { m with posSeconds := (samplePos : Rat) / (s.sampleRate : Rat) } }
  | _, _ => s

/-- The libADLMIDI arm of `nSeek` (`adl_positionSeek`). -/
def seekAdl (samplePos : Int) (s : EngineState) : EngineState :=
  match s.playerType, s.adlPlayer with
  | .LIBADLMIDI, some a =>
    { s with
      adlPlayer := some { a with posSeconds := (samplePos : Rat) / (s.sampleRate : Rat) } }
  | _, _ => s

/-- `nSeek`: the four backend arms in source order; libkss has no seek. -/
def nSeek (samplePos : Int) (s : EngineState) : EngineState :=
  seekAdl samplePos (seekMpt samplePos (seekGme samplePos (seekVgm samplePos s)))

/-! ## Track selection -/

/-- `nGetTrackCount`: libgme and libkss report their cached counts, every
other state reports 1. -/
def nGetTrackCount (s : EngineState) : Int :=
  match s.playerType with
  | .LIBGME => match s.gmePlayer with
    | some _ => s.gmeTrackCount
    | none => 1
  | .LIBKSS => match s.kss with
    | some _ => s.kssTrackCount
    | none => 1
  | _ => 1

/-- `nSetTrack`: libgme validates `0 ≤ idx < gGmeTrackCount` then starts
the track (which can itself fail); libkss validates the native
`trk_min ≤ idx ≤ trk_max` range and resets the player.  Everything else,
and every rejected index, returns false with the state unchanged. -/
def nSetTrack (trackIndex : Int) (s : EngineState) : Bool × EngineState :=
  match s.playerType with
  | .LIBGME =>
    (match s.gmePlayer with
     | some g =>
       if 0 ≤ trackIndex ∧ trackIndex < s.gmeTrackCount then
         if g.startFails trackIndex then (false, s)
         else (true, { s with
                       gmeTrackIndex := trackIndex,
                       gmePlayer := some { g with
                         startedTrack := trackIndex,
                         trackEnded := false, posMs := 0 } })
       else (false, s)
     | none => (false, s))
  | .LIBKSS =>
    (match s.kssPlay, s.kss with
     | some kp, some k =>
       if k.trkMin ≤ trackIndex ∧ trackIndex ≤ k.trkMax then
         (true, { s with
                  kssTrackIndex := trackIndex,
                  kssPlay := some { kp with track := trackIndex, stopFlag := false } })
       else (false, s)
     | _, _ => (false, s))
  | _ => (false, s)

/-- `nGetCurrentTrack`: the KSS index when a KSS file is live, else the
(libgme) index, which is 0 after cleanup. -/
def nGetCurrentTrack (s : EngineState) : Int :=
  match s.playerType with
  | .LIBKSS => match s.kss with
    | some _ => s.kssTrackIndex
    | none => s.gmeTrackIndex
  | _ => s.gmeTrackIndex

/-- `nIsMultiTrack`. -/
def nIsMultiTrack (path : String) : Bool :=
  isGmeFormat path || isKssFormat path

/-! ## Device (emulated sound chip) queries -/

/-- `nGetDeviceCount`: distinct device ids of a live VGMPlayer when
`GetSongDeviceInfo` succeeds; every other state reports 0 devices. -/
def nGetDeviceCount (s : EngineState) : Int :=
  match s.playerType, s.vgmPlayer with
  | .LIBVGM, some v =>
    if v.devOk then ((v.devices.map VgmDev.id).dedup.length : Int) else 0
  | _, _ => 0

/-- `nGetDeviceName`: libvgm looks the id up in the device table; libgme
returns the voice name (or "Unknown" for a null pointer); otherwise "". -/
def nGetDeviceName (id : Int) (s : EngineState) : String :=
  match s.playerType with
  | .LIBVGM =>
    (match s.vgmPlayer with
     | some v =>
       if v.devOk then
         match v.devices.find? (fun d => d.id = id) with
         | some d => d.name
         | none => ""
       else ""
     | none => "")
  | .LIBGME =>
    (match s.gmePlayer with
     | some g => (if 0 ≤ id then g.voiceNames.get? id.toNat else none).getD "Unknown"
     | none => "")
  | _ => ""

/-- `nGetDeviceVolume`: a live VGMPlayer's device volume; every
fall-through path returns the 0x100 (= 256) default. -/
def nGetDeviceVolume (id : Int) (s : EngineState) : Int :=
  match s.playerType, s.vgmPlayer with
  | .LIBVGM, some v =>
    if v.devOk then
      match v.devices.find? (fun d => d.id = id) with
      | some d => d.volume
      | none => 256
    else 256
  | _, _ => 256

/-- `nSetDeviceVolume`: `SetDeviceVolume(id, (UINT16)vol)` on a live
VGMPlayer; a no-op everywhere else. -/
def nSetDeviceVolume (id vol : Int) (s : EngineState) : EngineState :=
  match s.playerType, s.vgmPlayer with
  | .LIBVGM, some v =>
    { s with
      vgmPlayer := some { v with
        devices := v.devices.map (fun d =>
          if d.id = id then { d with volume := Int.emod vol 65536 } else d) } }
  | _, _ => s

/-! ## Metadata normalisation (nGetTags and the GD3 parser) -/

/-- Key-then-value-then-"|||" concatenation, repeated; exactly the
`s += key; s += "|||"; s += value; s += "|||";` appends of the source. -/
def renderTags (kvs : List (String × String)) : String :=
  String.join (kvs.map (fun kv => kv.1 ++ "|||" ++ kv.2 ++ "|||"))

/-- The GD3 tag key order (`tagKeys` in `readVgmGd3Tags`), which is also
the canonical key schema of the other backends' branches. -/
def gd3Keys : List String :=
  ["TITLE", "TITLE-JPN", "GAME", "GAME-JPN", "SYSTEM", "SYSTEM-JPN",
   "ARTIST", "ARTIST-JPN", "DATE", "ENCODED_BY", "COMMENT"]

/-- Byte fetch from the in-memory file image (`UINT8` array). -/
def byteAt (bytes : List Nat) (i : Nat) : Nat := (bytes.getD i 0) % 256

/-- `fileData[pos] | (fileData[pos + 1] << 8)`: one UTF-16LE code unit. -/
def u16At (bytes : List Nat) (pos : Nat) : Nat :=
  byteAt bytes pos + 256 * byteAt bytes (pos + 1)

/-- `utf16le_to_utf8` restricted to its BMP scalar mapping: consume pairs
of bytes while two remain, stop at a null code unit.  (The C encodes each
code unit straight to 1/2/3 UTF-8 bytes; at the text level that is the
scalar value of each unit.) -/
def utf16leDecode : List Nat → List Char
  | b0 :: b1 :: rest =>
    let cu := (b0 % 256) + 256 * (b1 % 256)
    if cu = 0 then [] else Char.ofNat cu :: utf16leDecode rest
  | _ => []

/-- The inner `while (pos + 1 < dataEnd)` null-terminator scan of
`readVgmGd3Tags`: returns the position just past the string (past the
null when one was found). -/
def gd3ScanEnd (bytes : List Nat) (dataEnd : Nat) (pos : Nat) : Nat :=
  if pos + 1 < dataEnd then
    if u16At bytes pos = 0 then pos + 2 else gd3ScanEnd bytes dataEnd (pos + 2)
  else pos
termination_by dataEnd - pos

/-- The `for (i = 0; i < tagCount && pos < dataEnd; i++)` loop of
`readVgmGd3Tags`, gathering (key, decoded value) pairs.  The value bytes
are `pos - start - 2` bytes from `start` (empty when that count
underflows, which in the C is a `size_t` wraparound feeding the decoder
an out-of-bounds length). -/
def gd3PairsAux (bytes : List Nat) (dataEnd : Nat) : List String → Nat → List (String × String)
  | [], _ => []
  | k :: ks, pos =>
    if pos < dataEnd then
      let pos2 := gd3ScanEnd bytes dataEnd pos
      let value := String.mk (utf16leDecode ((bytes.drop pos).take (pos2 - pos - 2)))
      (k, value) :: gd3PairsAux bytes dataEnd ks pos2
    else []

/-- `*(UINT32 *)(&fileData[gd3Ofs + 8])`: the little-endian data size. -/
def gd3DataSize (bytes : List Nat) (gd3Ofs : Nat) : Nat :=
  byteAt bytes (gd3Ofs + 8) + 256 * byteAt bytes (gd3Ofs + 9) +
    65536 * byteAt bytes (gd3Ofs + 10) + 16777216 * byteAt bytes (gd3Ofs + 11)

/-- `readVgmGd3Tags`: empty when there is no GD3 block or the magic does
not match; otherwise up to 11 key/value pairs rendered with the fixed
separator. -/
def readVgmGd3Tags (bytes : List Nat) (hdr : VgmHeader) : String :=
  if hdr.gd3Ofs = 0 ∨ hdr.gd3Ofs ≥ hdr.eofOfs then ""
  else if ¬ (byteAt bytes hdr.gd3Ofs = 0x47 ∧ byteAt bytes (hdr.gd3Ofs + 1) = 0x64 ∧
             byteAt bytes (hdr.gd3Ofs + 2) = 0x33 ∧ byteAt bytes (hdr.gd3Ofs + 3) = 0x20) then ""
  else
    let dataStart := hdr.gd3Ofs + 12
    let dataEnd0 := dataStart + gd3DataSize bytes hdr.gd3Ofs
    let dataEnd := if dataEnd0 > hdr.eofOfs then hdr.eofOfs else dataEnd0
    renderTags (gd3PairsAux bytes dataEnd gd3Keys dataStart)

/-- The libgme branch of `nGetTags`: all 11 keys, null tag pointers
becoming empty values. -/
def gmePairs (i : GmeInfo) : List (String × String) :=
  [("TITLE", i.song.getD ""), ("TITLE-JPN", ""),
   ("GAME", i.game.getD ""), ("GAME-JPN", ""),
   ("SYSTEM", i.systemName.getD ""), ("SYSTEM-JPN", ""),
   ("ARTIST", i.author.getD ""), ("ARTIST-JPN", ""),
   ("DATE", i.copyright.getD ""), ("ENCODED_BY", i.dumper.getD ""),
   ("COMMENT", i.comment.getD "")]

/-- The libopenmpt branch of `nGetTags`: ten keys as written in the
source (TITLE, GAME, GAME-JPN, SYSTEM, SYSTEM-JPN, ARTIST, ARTIST-JPN,
DATE, ENCODED_BY, COMMENT) - there is no TITLE-JPN pair in this branch. -/
def mptPairs (m : MptState) : List (String × String) :=
  [("TITLE", m.title.getD ""),
   ("GAME", m.message.getD ""), ("GAME-JPN", ""),
   ("SYSTEM", m.tracker.getD "Tracker"), ("SYSTEM-JPN", ""),
   ("ARTIST", m.artist.getD ""), ("ARTIST-JPN", ""),
   ("DATE", m.date.getD ""), ("ENCODED_BY", ""), ("COMMENT", "")]

/-- TITLE value of the libkss branch: the KSS title when nonempty, else
the track-specific title from the info table, else empty. -/
def kssTitleValue (k : KssState) (trackIdx : Int) : String :=
  if k.title.isEmpty = false then k.title
  else if k.info.isEmpty = false then
    match k.info.find? (fun e => e.song = trackIdx) with
    | some e => e.title
    | none => ""
  else ""

/-- SYSTEM value of the libkss branch, from `gKss->mode`. -/
def kssSystemValue (k : KssState) : String :=
  if k.mode = 0 then "MSX"
  else if k.mode = 1 then "Sega Master System"
  else if k.mode = 2 then "Sega Game Gear"
  else "MSX"

/-- The libkss branch of `nGetTags`: all 11 keys. -/
def kssPairs (k : KssState) (trackIdx : Int) : List (String × String) :=
  [("TITLE", kssTitleValue k trackIdx), ("TITLE-JPN", ""),
   ("GAME", k.title), ("GAME-JPN", ""),
   ("SYSTEM", kssSystemValue k), ("SYSTEM-JPN", ""),
   ("ARTIST", ""), ("ARTIST-JPN", ""),
   ("DATE", ""), ("ENCODED_BY", ""), ("COMMENT", "")]

/-- `nGetTags`. -/
def nGetTags (s : EngineState) : String :=
  match s.playerType with
  | .LIBVGM =>
    (match s.vgmPlayer with
     | some v =>
       (match s.loader with
        | some bytes => readVgmGd3Tags bytes v.hdr
        | none => "")
     | none => "")
  | .LIBGME =>
    (match s.gmePlayer with
     | some g =>
       (match gmeInfoAt g s.gmeTrackIndex with
        | some i => renderTags (gmePairs i)
        | none => "")
     | none => "")
  | .LIBOPENMPT =>
    (match s.openmptModule with
     | some m => renderTags (mptPairs m)
     | none => "")
  | .LIBKSS =>
    (match s.kss with
     | some k => renderTags (kssPairs k s.kssTrackIndex)
     | none => "")
  | _ => ""

/-- Greedy count of the "|||" separator occurrences in a character list:
the number a caller splitting on the separator would find. -/
def tripleSepCount : List Char → Nat
  | '|' :: '|' :: '|' :: rest => 1 + tripleSepCount rest
  | _ :: rest => tripleSepCount rest
  | [] => 0

/-! ## Probe-only operations -/

/-- `nGetTrackLengthDirect`: probes with a temporary emulator or a local
loader + VGMPlayer; the engine state is only read (`gSampleRate`). -/
def nGetTrackLengthDirect (env : Env) (path : String) (s : EngineState) : Int × EngineState :=
  if isGmeFormat path then
    match env.gmeOpen path s.sampleRate with
    | none => (0, s)
    | some gf =>
      match gf.infos.get? 0 with
      | none => (0, s)
      | some i => (msToSamples (gmeLenMs i) s.sampleRate, s)
  else
    match env.loaderLoad path with
    | none => (0, s)
    | some bytes =>
      match env.vgmLoadFile bytes with
      | none => (0, s)
      | some vf => (vf.lengthSamples, s)

/-- `nGetTrackLength`: as `nGetTrackLengthDirect` but for a chosen track
(out-of-range indices fall back to track 0); non-gme paths delegate to
`nGetTrackLengthDirect`. -/
def nGetTrackLength (env : Env) (path : String) (trackIndex : Int)
    (s : EngineState) : Int × EngineState :=
  if isGmeFormat path then
    match env.gmeOpen path s.sampleRate with
    | none => (0, s)
    | some gf =>
      let actual := if 0 ≤ trackIndex ∧ trackIndex < gf.trackCount then trackIndex else 0
      match (if 0 ≤ actual then gf.infos.get? actual.toNat else none) with
      | none => (0, s)
      | some i => (msToSamples (gmeLenMs i) s.sampleRate, s)
  else nGetTrackLengthDirect env path s

/-- `nGetKssTrackCountDirect`: a temporary `KSS_bin2kss` parse; 1 on any
failure or non-KSS path. -/
def nGetKssTrackCountDirect (env : Env) (path : String) (s : EngineState) : Int × EngineState :=
  if isKssFormat path = false then (1, s)
  else
    match env.fileRead path with
    | none => (1, s)
    | some bytes =>
      match env.kssBin2kss bytes (basename path) with
      | none => (1, s)
      | some k => (k.trkMax - k.trkMin + 1, s)

/-- `nGetKssTrackRange`: the (trk_min, trk_max) pair, defaulting to
(1, 1). -/
def nGetKssTrackRange (env : Env) (path : String) (s : EngineState) :
    (Int × Int) × EngineState :=
  if isKssFormat path = false then ((1, 1), s)
  else
    match env.fileRead path with
    | none => ((1, 1), s)
    | some bytes =>
      match env.kssBin2kss bytes (basename path) with
      | none => ((1, 1), s)
      | some k => ((k.trkMin, k.trkMax), s)

/-! ## PCM output normalisation (the libvgm branch of nFillBuffer) -/

/-- `buf[i].L >> 8`: arithmetic right shift of the 24.8 fixed-point
sample (floor division by 256). -/
def asr8 (x : Int) : Int := Int.fdiv x 256

/-- The saturation of `nFillBuffer`'s libvgm branch:
`if (l > 32767) l = 32767; if (l < -32768) l = -32768;`. -/
def clampI16 (x : Int) : Int :=
  if x > 32767 then 32767 else if x < -32768 then -32768 else x

/-- One output sample of the libvgm render path: shift then saturate. -/
def vgmOutSample (x : Int) : Int := clampI16 (asr8 x)

/-- The whole-buffer conversion: every rendered 32-bit stereo frame is
shifted and saturated channel-wise before being stored as int16. -/
def vgmOutFrames (frames : List (Int × Int)) : List (Int × Int) :=
  frames.map (fun f => (vgmOutSample f.1, vgmOutSample f.2))

/-! ## The handle/type consistency invariant -/

/-- The type tag together with the liveness (non-null-ness) of each of
the seven handle globals. -/
def handleShape (s : EngineState) :
    PlayerType × Bool × Bool × Bool × Bool × Bool × Bool × Bool :=
  (s.playerType, s.vgmPlayer.isSome, s.gmePlayer.isSome, s.openmptModule.isSome,
   s.kss.isSome, s.kssPlay.isSome, s.adlPlayer.isSome, s.loader.isSome)

/-- The live-handle pattern each `gPlayerType` value implies: exactly the
handles of the named backend are non-null (libvgm also owns the loader),
and `NONE` owns nothing. -/
def shapeConsistent : PlayerType × Bool × Bool × Bool × Bool × Bool × Bool × Bool → Bool
  | (.NONE, v, g, m, k, kp, a, l) => !v && !g && !m && !k && !kp && !a && !l
  | (.LIBVGM, v, g, m, k, kp, a, l) => v && l && !g && !m && !k && !kp && !a
  | (.LIBGME, v, g, m, k, kp, a, l) => g && !v && !m && !k && !kp && !a && !l
  | (.LIBOPENMPT, v, g, m, k, kp, a, l) => m && !v && !g && !k && !kp && !a && !l
  | (.LIBKSS, v, g, m, k, kp, a, l) => k && kp && !v && !g && !m && !a && !l
  | (.LIBADLMIDI, v, g, m, k, kp, a, l) => a && !v && !g && !m && !k && !kp && !l

/-- A state satisfies the invariant when its handle shape does. -/
def handlesConsistent (s : EngineState) : Bool := shapeConsistent (handleShape s)

/-! ## Concrete data used by witnesses and counterexamples -/

/-- A track-info entry reporting a plain 5-second play length. -/
def gmeInfo5s : GmeInfo :=
  { playLength := 5000, introLength := 0, loopLength := 0, song := none,
    game := none, systemName := none, author := none, copyright := none,
    dumper := none, comment := none }

/-- A well-behaved 3-track libgme file. -/
def gmeFile5s : GmeFile :=
  { trackCount := 3, infos := [gmeInfo5s], voiceNames := [],
    startFails := fun i => false }

/-- An engine state with that libgme file open. -/
def gmeOpenState : EngineState :=
  { initState with
    playerType := .LIBGME, gmePlayer := some (freshGme gmeFile5s),
    gmeTrackCount := 3 }

/-- A KSS data object whose native track numbering is 1..3. -/
def kss3 : KssState :=
  { trkMin := 1, trkMax := 3, mode := 0, title := "", info := [] }

/-- An engine state with that 3-track KSS file open. -/
def kssOpenState : EngineState :=
  { initState with
    playerType := .LIBKSS, kss := some kss3,
    kssPlay := some { track := 1, speed := 1, stopFlag := false },
    kssTrackCount := 3, kssTrackIndex := 1 }

/-- An openmpt module supplying zero native metadata. -/
def mptEmptyMeta : MptState :=
  { title := none, message := none, tracker := none, artist := none,
    date := none, posSeconds := 0 }

/-- An engine state with that tracker module open. -/
def mptOpenState : EngineState :=
  { initState with playerType := .LIBOPENMPT, openmptModule := some mptEmptyMeta }

/-- A loaded VGM file whose header has no GD3 block (`gd3Ofs = 0`). -/
def vgmNoGd3 : VgmState :=
  { sampleRate := 44100, speed := 1, started := true, stateEnd := false,
    lengthSamples := 441000, curSample := 0, hdr := { gd3Ofs := 0, eofOfs := 64 },
    devices := [], devOk := true }

/-- An engine state with that VGM file open. -/
def vgmOpenState : EngineState :=
  { initState with
    playerType := .LIBVGM, vgmPlayer := some vgmNoGd3, loader := some [] }

/-- An open libgme session whose emulator has signalled its native
end-of-stream while the endless-loop override is set. -/
def gmeEndedEndless : EngineState :=
  { initState with
    playerType := .LIBGME,
    gmePlayer := some { freshGme gmeFile5s with trackEnded := true },
    gmeTrackCount := 3, endlessLoopMode := true }

/-- An environment in which opening a libgme path succeeds with
`gmeFile5s` and every other library call fails. -/
def envGmeOk : Env :=
  { gmeOpen := fun p r => some gmeFile5s, fileRead := fun p => none,
    kssBin2kss := fun b n => none, kssplayNewOk := true,
    mptCreate := fun b => none, adlInitOk := true, adlOpen := fun p => none,
    loaderLoad := fun p => none, vgmLoadFile := fun b => none }

/-! ## Helper lemmas -/

/-- A lower-cased extension accepted by the libgme chain is rejected by
the other three chains. -/
theorem isGmeExt_excl (e : String) (h : isGmeExt e = true) :
    isKssExt e = false ∧ isOpenmptExt e = false ∧ isMidiExt e = false := by
  simp only [isGmeExt, Bool.or_eq_true, beq_iff_eq] at h
  rcases h with ((((((rfl | rfl) | rfl) | rfl) | rfl) | rfl) | rfl) | rfl <;> decide

/-- A lower-cased extension accepted by the libkss chain is rejected by
the other three chains. -/
theorem isKssExt_excl (e : String) (h : isKssExt e = true) :
    isGmeExt e = false ∧ isOpenmptExt e = false ∧ isMidiExt e = false := by
  simp only [isKssExt, Bool.or_eq_true, beq_iff_eq] at h
  rcases h with ((((rfl | rfl) | rfl) | rfl) | rfl) | rfl <;> decide

/-- A lower-cased extension accepted by the libopenmpt chain is rejected
by the other three chains. -/
theorem isOpenmptExt_excl (e : String) (h : isOpenmptExt e = true) :
    isGmeExt e = false ∧ isKssExt e = false ∧ isMidiExt e = false := by
  simp only [isOpenmptExt, Bool.or_eq_true, beq_iff_eq] at h
  rcases h with
    (((((((((((((((((((((((((((rfl | rfl) | rfl) | rfl) | rfl) | rfl) | rfl) | rfl) |
      rfl) | rfl) | rfl) | rfl) | rfl) | rfl) | rfl) | rfl) | rfl) | rfl) | rfl) |
      rfl) | rfl) | rfl) | rfl) | rfl) | rfl) | rfl) | rfl) | rfl) | rfl <;> decide

/-- A lower-cased extension accepted by the MIDI chain is rejected by the
other three chains. -/
theorem isMidiExt_excl (e : String) (h : isMidiExt e = true) :
    isGmeExt e = false ∧ isKssExt e = false ∧ isOpenmptExt e = false := by
  simp only [isMidiExt, Bool.or_eq_true, beq_iff_eq] at h
  rcases h with ((rfl | rfl) | rfl) | rfl <;> decide

/-! ## C6 -/

/-- C6: for every path, at most one of the four concrete backend
classifiers accepts it (their extension sets are pairwise disjoint); any
path none of them accepts falls through to the default libvgm branch of
`nOpen`. -/
theorem c6_extension_sets_disjoint (path : String) :
    (isGmeFormat path = true →
      isKssFormat path = false ∧ isOpenmptFormat path = false ∧ isMidiFormat path = false) ∧
    (isKssFormat path = true →
      isGmeFormat path = false ∧ isOpenmptFormat path = false ∧ isMidiFormat path = false) ∧
    (isOpenmptFormat path = true →
      isGmeFormat path = false ∧ isKssFormat path = false ∧ isMidiFormat path = false) ∧
    (isMidiFormat path = true →
      isGmeFormat path = false ∧ isKssFormat path = false ∧ isOpenmptFormat path = false) := by
  unfold isGmeFormat isKssFormat isOpenmptFormat isMidiFormat
  cases he : lowerExt path with
  | none =>
    refine ⟨?_, ?_, ?_, ?_⟩ <;> (intro h; simp at h)
  | some e =>
    refine ⟨?_, ?_, ?_, ?_⟩ <;> intro h
    · exact isGmeExt_excl e h
    · exact isKssExt_excl e h
    · exact isOpenmptExt_excl e h
    · exact isMidiExt_excl e h

/-- C6 witness: a `.nsf` path is accepted by the libgme classifier and,
by the theorem, rejected by the other three. -/
theorem c6_extension_sets_disjoint_witness :
    isGmeFormat "song.nsf" = true ∧
    isKssFormat "song.nsf" = false ∧ isOpenmptFormat "song.nsf" = false ∧
    isMidiFormat "song.nsf" = false := by
  have h := (c6_extension_sets_disjoint "song.nsf").1 (by decide)
  exact ⟨by decide, h.1, h.2.1, h.2.2⟩

/-! ## C3 -/

/-- C3: on an open libgme session whose heuristic estimate (intro + 2 x
loop when both are positive, else the raw play length) is under 30000 ms,
`nGetTotalSamples` returns the 180-second default times the sample rate. -/
theorem c3_duration_floor (s : EngineState) (g : GmeState) (i : GmeInfo)
    (hpt : s.playerType = .LIBGME) (hg : s.gmePlayer = some g)
    (hi : gmeInfoAt g s.gmeTrackIndex = some i)
    (hshort : (if i.introLength > 0 ∧ i.loopLength > 0
               then i.introLength + i.loopLength * 2
               else i.playLength) < 30000) :
    nGetTotalSamples s = 180 * (s.sampleRate : Int) := by
  unfold nGetTotalSamples
  simp only [hpt, hg, hi]
  unfold gmeLenMs
  rw [if_pos hshort]
  unfold msToSamples
  rw [show ((180000 : Int) * (s.sampleRate : Int)) = (180 * (s.sampleRate : Int)) * 1000 by ring]
  exact Int.mul_tdiv_cancel _ (by norm_num)

/-- C3 witness: a backend reporting a 5-second estimate at 44100 Hz
yields 180 x 44100 total samples. -/
theorem c3_duration_floor_witness :
    nGetTotalSamples gmeOpenState = 180 * 44100 := by
  have h := c3_duration_floor gmeOpenState (freshGme gmeFile5s) gmeInfo5s rfl rfl rfl (by decide)
  simpa using h

/-! ## C4 -/

/-- C4 counterexample: a large negative 24.8 fixed-point input saturates
to -32768, whose absolute value exceeds 32767 - the claimed bound
"no output sample has absolute value exceeding 32767" fails at the lower
edge of the int16 range. -/
theorem c4_abs_bound_counterexample :
    vgmOutSample (-16777216) = -32768 ∧
    32767 < (vgmOutSample (-16777216)).natAbs ∧
    vgmOutFrames [(-16777216, 0)] = [(-32768, 0)] := by
  decide

/-- C4 (amended): every output sample of the libvgm render conversion
lies in the int16 range [-32768, 32767], out-of-range values are
saturated to the nearest bound, and in-range values pass through
unchanged (saturation, never wraparound); likewise channel-wise for every
frame of a converted buffer. -/
theorem c4_saturation_range (x : Int) :
    (-32768 ≤ vgmOutSample x ∧ vgmOutSample x ≤ 32767) ∧
    (32767 < asr8 x → vgmOutSample x = 32767) ∧
    (asr8 x < -32768 → vgmOutSample x = -32768) ∧
    (-32768 ≤ asr8 x → asr8 x ≤ 32767 → vgmOutSample x = asr8 x) ∧
    (∀ frames p, p ∈ vgmOutFrames frames →
      -32768 ≤ p.1 ∧ p.1 ≤ 32767 ∧ -32768 ≤ p.2 ∧ p.2 ≤ 32767) := by
  have hb : ∀ y : Int, -32768 ≤ clampI16 y ∧ clampI16 y ≤ 32767 := by
    intro y
    unfold clampI16
    split
    · omega
    · split <;> omega
  refine ⟨hb (asr8 x), ?_, ?_, ?_, ?_⟩
  · intro h
    unfold vgmOutSample clampI16
    rw [if_pos h]
  · intro h
    unfold vgmOutSample clampI16
    rw [if_neg (by omega), if_pos h]
  · intro h1 h2
    unfold vgmOutSample clampI16
    rw [if_neg (by omega), if_neg (by omega)]
  · intro frames p hp
    unfold vgmOutFrames at hp
    obtain ⟨q, hq, rfl⟩ := List.mem_map.mp hp
    exact ⟨(hb _).1, (hb _).2, (hb _).1, (hb _).2⟩

/-- C4 witness: the saturation theorem applied at an in-range input. -/
theorem c4_saturation_range_witness :
    vgmOutSample 25600 = 100 ∧ (-32768 ≤ vgmOutSample 25600 ∧ vgmOutSample 25600 ≤ 32767) := by
  have h := c4_saturation_range 25600
  exact ⟨h.2.2.2.1 (by decide) (by decide), h.1⟩

/-! ## C1 -/

/-- C1 counterexample: on the Closed session (player type NONE, as after
`cleanup`) the code returns true from `nIsEnded`, 0x100 = 256 from
`nGetDeviceVolume` and 1 from `nGetTrackCount` - not the claimed neutral
defaults false, 0 and 0. -/
theorem c1_closed_defaults_counterexample :
    nIsEnded initState = true ∧
    nGetDeviceVolume 0 initState = 256 ∧
    nGetTrackCount initState = 1 ∧
    ¬ (nIsEnded initState = false ∧ nGetDeviceVolume 0 initState = 0 ∧
       nGetTrackCount initState = 0) := by
  decide

/-- C1 (amended): every boundary operation other than Open is total and
error-free on a Closed session, but the fixed defaults are: `nIsEnded`
true (unless the sticky endless-loop flag is set), `nGetTrackCount` 1,
`nGetDeviceVolume` 0x100 = 256, and 0 / empty-string / false-with-state-
unchanged for the remaining queries. -/
theorem c1_closed_session_fixed_defaults (s : EngineState) (hs : s.playerType = .NONE) :
    nIsEnded s = !s.endlessLoopMode ∧
    nGetTrackCount s = 1 ∧
    (∀ id, nGetDeviceVolume id s = 256) ∧
    nGetDeviceCount s = 0 ∧
    (∀ id, nGetDeviceName id s = "") ∧
    nGetTotalSamples s = 0 ∧
    nGetCurrentSample s = 0 ∧
    nGetTags s = "" ∧
    (∀ i, nSetTrack i s = (false, s)) ∧
    nGetCurrentTrack s = s.gmeTrackIndex := by
  unfold nIsEnded nGetTrackCount nGetDeviceVolume nGetDeviceCount nGetDeviceName
    nGetTotalSamples nGetCurrentSample nGetTags nSetTrack nGetCurrentTrack
  rw [hs]
  cases hb : s.endlessLoopMode <;> simp

/-- C1 witness: the fixed defaults evaluated on the initial (Closed)
state. -/
theorem c1_closed_session_fixed_defaults_witness :
    nIsEnded initState = true ∧ nGetTrackCount initState = 1 ∧
    nGetDeviceVolume 7 initState = 256 ∧ nGetTags initState = "" ∧
    nSetTrack 2 initState = (false, initState) := by
  have h := c1_closed_session_fixed_defaults initState rfl
  exact ⟨by simpa using h.1, h.2.1, h.2.2.1 7, h.2.2.2.2.2.2.2.1,
    h.2.2.2.2.2.2.2.2.1 2⟩

/-! ## C9 -/

/-- C9: every probe-only operation returns the engine state it was given,
unchanged - the temporary emulator / parse it constructs is fully
discarded and no global of the active session is written. -/
theorem c9_probe_operations_leave_session_unchanged (env : Env) (path : String)
    (tr : Int) (s : EngineState) :
    (nGetTrackLengthDirect env path s).2 = s ∧
    (nGetTrackLength env path tr s).2 = s ∧
    (nGetKssTrackCountDirect env path s).2 = s ∧
    (nGetKssTrackRange env path s).2 = s := by
  refine ⟨?_, ?_, ?_, ?_⟩ <;>
    simp only [nGetTrackLength, nGetTrackLengthDirect, nGetKssTrackCountDirect,
      nGetKssTrackRange] <;>
    (repeat' split) <;> rfl

/-! ## C2 -/

/-- The GD3 pair loop never yields more pairs than it has keys. -/
theorem gd3PairsAux_length_le (bytes : List Nat) (dataEnd : Nat) :
    ∀ ks pos, (gd3PairsAux bytes dataEnd ks pos).length ≤ ks.length := by
  intro ks
  induction ks with
  | nil => intro pos; simp [gd3PairsAux]
  | cons k ks ih =>
    intro pos
    unfold gd3PairsAux
    split
    · simpa using Nat.succ_le_succ (ih _)
    · simp

/-- C2 counterexample: on an open libopenmpt session with zero native
metadata, `nGetTags` renders only 10 key/value pairs (the TITLE-JPN pair
is absent from that branch), so the produced string holds 20 separator
occurrences, not the 22 that 11 pairs would give. -/
theorem c2_eleven_pairs_counterexample :
    nGetTags mptOpenState = renderTags (mptPairs mptEmptyMeta) ∧
    (mptPairs mptEmptyMeta).length = 10 ∧
    tripleSepCount (nGetTags mptOpenState).data = 20 ∧
    (10 ≠ 11) ∧ (20 ≠ 2 * 11) := by
  decide

/-- C2 (amended): the libgme (with readable track info) and libkss
branches of `nGetTags` always render exactly 11 pairs in the canonical
key order; the libopenmpt branch renders only 10 pairs, in an order that
is not the canonical one; the libvgm branch renders the empty string when
the file has no GD3 block and never more than 11 pairs. -/
theorem c2_tag_schema_by_backend (s : EngineState) :
    (∀ g i, s.playerType = .LIBGME → s.gmePlayer = some g →
      gmeInfoAt g s.gmeTrackIndex = some i →
      nGetTags s = renderTags (gmePairs i) ∧ (gmePairs i).length = 11 ∧
      (gmePairs i).map Prod.fst = gd3Keys) ∧
    (∀ k, s.playerType = .LIBKSS → s.kss = some k →
      nGetTags s = renderTags (kssPairs k s.kssTrackIndex) ∧
      (kssPairs k s.kssTrackIndex).length = 11 ∧
      (kssPairs k s.kssTrackIndex).map Prod.fst = gd3Keys) ∧
    (∀ m, s.playerType = .LIBOPENMPT → s.openmptModule = some m →
      nGetTags s = renderTags (mptPairs m) ∧ (mptPairs m).length = 10 ∧
      (mptPairs m).map Prod.fst ≠ gd3Keys) ∧
    (∀ v bytes, s.playerType = .LIBVGM → s.vgmPlayer = some v → s.loader = some bytes →
      (v.hdr.gd3Ofs = 0 → nGetTags s = "") ∧
      (∀ dataEnd pos, (gd3PairsAux bytes dataEnd gd3Keys pos).length ≤ 11)) := by
  refine ⟨?_, ?_, ?_, ?_⟩
  · intro g i hpt hg hi
    unfold nGetTags
    simp only [hpt, hg, hi]
    exact ⟨trivial, rfl, rfl⟩
  · intro k hpt hk
    unfold nGetTags
    simp only [hpt, hk]
    exact ⟨trivial, rfl, rfl⟩
  · intro m hpt hm
    unfold nGetTags
    simp only [hpt, hm]
    refine ⟨trivial, rfl, ?_⟩
    intro hEq
    have hlen := congrArg List.length hEq
    simp [mptPairs, gd3Keys] at hlen
  · intro v bytes hpt hv hl
    constructor
    · intro h0
      unfold nGetTags
      simp only [hpt, hv, hl]
      unfold readVgmGd3Tags
      rw [if_pos (Or.inl h0)]
    · intro dataEnd pos
      simpa using gd3PairsAux_length_le bytes dataEnd gd3Keys pos

/-- C2 witness: the amended schema on a concrete open libgme session. -/
theorem c2_tag_schema_by_backend_witness :
    nGetTags gmeOpenState = renderTags (gmePairs gmeInfo5s) ∧
    (gmePairs gmeInfo5s).length = 11 ∧
    (gmePairs gmeInfo5s).map Prod.fst = gd3Keys ∧
    tripleSepCount (nGetTags gmeOpenState).data = 2 * 11 := by
  have h := (c2_tag_schema_by_backend gmeOpenState).1 (freshGme gmeFile5s) gmeInfo5s rfl rfl rfl
  exact ⟨h.1, h.2.1, h.2.2, by decide⟩

/-! ## C5 -/

/-- C5 counterexample: set speed 1/2 on a Closed session, then open a
libgme file successfully.  The stored multiplier still reads 1/2, but the
freshly constructed emulator runs at its library-default tempo 1; only a
subsequent explicit `nSetPlaybackSpeed` pushes 1/2 into it.  The opened
session is therefore not observationally equivalent to one that received
`SetPlaybackSpeed` after the open. -/
theorem c5_speed_not_applied_on_open_counterexample :
    (nOpen envGmeOk "song.nsf" (nSetPlaybackSpeed 2 initState)).1 = true ∧
    nGetPlaybackSpeed (nOpen envGmeOk "song.nsf" (nSetPlaybackSpeed 2 initState)).2 = 2 ∧
    Option.map GmeState.tempo
      (nOpen envGmeOk "song.nsf" (nSetPlaybackSpeed 2 initState)).2.gmePlayer = some 1 ∧
    Option.map GmeState.tempo
      (nSetPlaybackSpeed 2
        (nOpen envGmeOk "song.nsf" (nSetPlaybackSpeed 2 initState)).2).gmePlayer = some 2 ∧
    ((1 : Rat) ≠ 2) := by
  refine ⟨by decide, by decide, by decide, by decide, by norm_num⟩

/-- C5 (amended): the playback-speed multiplier persists across `nOpen`
(the stored global is untouched), but it is NOT re-applied to the newly
constructed backend: every backend handle that `nOpen` constructs starts
at its native default speed 1 regardless of the stored multiplier. -/
theorem c5_speed_persists_but_not_reapplied (env : Env) (path : String) (s : EngineState) :
    (nOpen env path s).2.playbackSpeed = s.playbackSpeed ∧
    (∀ g, (nOpen env path s).2.gmePlayer = some g → g.tempo = 1) ∧
    (∀ kp, (nOpen env path s).2.kssPlay = some kp → kp.speed = 1) ∧
    (∀ v, (nOpen env path s).2.vgmPlayer = some v → v.speed = 1) := by
  refine ⟨?_, ?_, ?_, ?_⟩
  · simp only [nOpen]
    (repeat' split) <;> rfl
  · intro g hg
    simp only [nOpen] at hg
    (repeat' split at hg) <;> (try cases hg) <;> simp_all [freshGme]
  · intro kp hkp
    simp only [nOpen] at hkp
    (repeat' split at hkp) <;> (try cases hkp) <;> simp_all
  · intro v hv
    simp only [nOpen] at hv
    (repeat' split at hv) <;> (try cases hv) <;> simp_all

/-- C5 witness: the amended statement at a successful concrete open. -/
theorem c5_speed_persists_but_not_reapplied_witness :
    (nOpen envGmeOk "song.nsf" initState).2.playbackSpeed = 1 ∧
    (freshGme gmeFile5s).tempo = 1 := by
  have h := c5_speed_persists_but_not_reapplied envGmeOk "song.nsf" initState
  exact ⟨by simpa using h.1, h.2.1 (freshGme gmeFile5s) rfl⟩

/-! ## C7 -/

/-- C7: `nSetTrack` on an open multi-track session rejects an index
outside the adapter's valid set (false, state - hence current track -
unchanged) and accepts a valid one (true, and `nGetCurrentTrack` then
reports it); for libgme the accept case also needs the native
`gme_start_track` to succeed. -/
theorem c7_set_track_validation (s : EngineState) :
    (∀ g idx, s.playerType = .LIBGME → s.gmePlayer = some g →
      (¬ (0 ≤ idx ∧ idx < s.gmeTrackCount) → nSetTrack idx s = (false, s)) ∧
      ((0 ≤ idx ∧ idx < s.gmeTrackCount) → g.startFails idx = false →
        (nSetTrack idx s).1 = true ∧ nGetCurrentTrack (nSetTrack idx s).2 = idx)) ∧
    (∀ k kp idx, s.playerType = .LIBKSS → s.kss = some k → s.kssPlay = some kp →
      (¬ (k.trkMin ≤ idx ∧ idx ≤ k.trkMax) → nSetTrack idx s = (false, s)) ∧
      ((k.trkMin ≤ idx ∧ idx ≤ k.trkMax) →
        (nSetTrack idx s).1 = true ∧ nGetCurrentTrack (nSetTrack idx s).2 = idx)) := by
  constructor
  · intro g idx hpt hg
    constructor
    · intro hbad
      unfold nSetTrack
      simp only [hpt, hg]
      rw [if_neg hbad]
    · intro hok hsf
      unfold nSetTrack nGetCurrentTrack
      simp only [hpt, hg]
      rw [if_pos hok, if_neg (by simp [hsf])]
      simp [hpt]
  · intro k kp idx hpt hk hkp
    constructor
    · intro hbad
      unfold nSetTrack
      simp only [hpt, hk, hkp]
      rw [if_neg hbad]
    · intro hok
      unfold nSetTrack nGetCurrentTrack
      simp only [hpt, hk, hkp]
      rw [if_pos hok]
      simp [hpt, hk]

/-- C7 witness: the spec scenario on a 3-track KSS file (native range
1..3): track count 3, `SetTrack 5` rejected with the state unchanged,
`SetTrack 1` accepted and then reported as current. -/
theorem c7_set_track_validation_witness :
    nGetTrackCount kssOpenState = 3 ∧
    nSetTrack 5 kssOpenState = (false, kssOpenState) ∧
    nGetCurrentTrack kssOpenState = 1 ∧
    (nSetTrack 1 kssOpenState).1 = true ∧
    nGetCurrentTrack (nSetTrack 1 kssOpenState).2 = 1 := by
  have h := (c7_set_track_validation kssOpenState).2 kss3
    { track := 1, speed := 1, stopFlag := false } 5 rfl rfl rfl
  have h1 := (c7_set_track_validation kssOpenState).2 kss3
    { track := 1, speed := 1, stopFlag := false } 1 rfl rfl rfl
  refine ⟨by decide, h.1 (by decide), by decide, (h1.2 (by decide)).1, (h1.2 (by decide)).2⟩

/-! ## Per-operation handle-shape and sticky-flag preservation -/

theorem setSpeedVgm_shape (sp : Rat) (s : EngineState) :
    handleShape (setSpeedVgm sp s) = handleShape s := by
  unfold setSpeedVgm; split <;> simp [handleShape, *]

theorem setSpeedGme_shape (sp : Rat) (s : EngineState) :
    handleShape (setSpeedGme sp s) = handleShape s := by
  unfold setSpeedGme; split <;> simp [handleShape, *]

theorem setSpeedKss_shape (sp : Rat) (s : EngineState) :
    handleShape (setSpeedKss sp s) = handleShape s := by
  unfold setSpeedKss; split <;> simp [handleShape, *]

theorem seekVgm_shape (pos : Int) (s : EngineState) :
    handleShape (seekVgm pos s) = handleShape s := by
  unfold seekVgm; split <;> simp [handleShape, *]

theorem seekGme_shape (pos : Int) (s : EngineState) :
    handleShape (seekGme pos s) = handleShape s := by
  unfold seekGme; split <;> simp [handleShape, *]

theorem seekMpt_shape (pos : Int) (s : EngineState) :
    handleShape (seekMpt pos s) = handleShape s := by
  unfold seekMpt; split <;> simp [handleShape, *]

theorem seekAdl_shape (pos : Int) (s : EngineState) :
    handleShape (seekAdl pos s) = handleShape s := by
  unfold seekAdl; split <;> simp [handleShape, *]

theorem nPlay_shape (s : EngineState) : handleShape (nPlay s) = handleShape s := by
  unfold nPlay; split <;> simp [handleShape, *]

theorem nStop_shape (s : EngineState) : handleShape (nStop s) = handleShape s := by
  unfold nStop; split <;> simp [handleShape, *]

theorem nSetEndlessLoop_shape (b : Bool) (s : EngineState) :
    handleShape (nSetEndlessLoop b s) = handleShape s := by
  simp only [nSetEndlessLoop]; split <;> simp [handleShape, *]

theorem nSetSampleRate_shape (r : Nat) (s : EngineState) :
    handleShape (nSetSampleRate r s) = handleShape s := by
  unfold nSetSampleRate; cases hv : s.vgmPlayer <;> simp [handleShape, hv]

theorem nSetDeviceVolume_shape (id vol : Int) (s : EngineState) :
    handleShape (nSetDeviceVolume id vol s) = handleShape s := by
  unfold nSetDeviceVolume; split <;> simp [handleShape, *]

theorem nSetTrack_shape (i : Int) (s : EngineState) :
    handleShape (nSetTrack i s).2 = handleShape s := by
  unfold nSetTrack; (repeat' split) <;> simp [handleShape, *]

theorem setSpeedVgm_endless (sp : Rat) (s : EngineState) :
    (setSpeedVgm sp s).endlessLoopMode = s.endlessLoopMode := by
  unfold setSpeedVgm; split <;> rfl

theorem setSpeedGme_endless (sp : Rat) (s : EngineState) :
    (setSpeedGme sp s).endlessLoopMode = s.endlessLoopMode := by
  unfold setSpeedGme; split <;> rfl

theorem setSpeedKss_endless (sp : Rat) (s : EngineState) :
    (setSpeedKss sp s).endlessLoopMode = s.endlessLoopMode := by
  unfold setSpeedKss; split <;> rfl

theorem seekVgm_endless (pos : Int) (s : EngineState) :
    (seekVgm pos s).endlessLoopMode = s.endlessLoopMode := by
  unfold seekVgm; split <;> rfl

theorem seekGme_endless (pos : Int) (s : EngineState) :
    (seekGme pos s).endlessLoopMode = s.endlessLoopMode := by
  unfold seekGme; split <;> rfl

theorem seekMpt_endless (pos : Int) (s : EngineState) :
    (seekMpt pos s).endlessLoopMode = s.endlessLoopMode := by
  unfold seekMpt; split <;> rfl

theorem seekAdl_endless (pos : Int) (s : EngineState) :
    (seekAdl pos s).endlessLoopMode = s.endlessLoopMode := by
  unfold seekAdl; split <;> rfl

/-! ## C8 -/

/-- C8: while the sticky endless-loop flag is set, `nIsEnded` reports
false in every state - whatever the backend and whatever its native
end-of-stream signal says - and no operation other than `nSetEndlessLoop`
changes the flag (`cleanup`, hence also Close and Open, keeps it). -/
theorem c8_endless_loop_forces_not_ended (s : EngineState) (env : Env)
    (path rp : String) (b : Bool) (i id vol pos : Int) (sp : Rat) (r : Nat) :
    (s.endlessLoopMode = true → nIsEnded s = false) ∧
    (nSetEndlessLoop b s).endlessLoopMode = b ∧
    (cleanup s).endlessLoopMode = s.endlessLoopMode ∧
    (nClose s).endlessLoopMode = s.endlessLoopMode ∧
    ((nOpen env path s).2).endlessLoopMode = s.endlessLoopMode ∧
    (nPlay s).endlessLoopMode = s.endlessLoopMode ∧
    (nStop s).endlessLoopMode = s.endlessLoopMode ∧
    (nSeek pos s).endlessLoopMode = s.endlessLoopMode ∧
    ((nSetTrack i s).2).endlessLoopMode = s.endlessLoopMode ∧
    (nSetPlaybackSpeed sp s).endlessLoopMode = s.endlessLoopMode ∧
    (nSetSampleRate r s).endlessLoopMode = s.endlessLoopMode ∧
    (nSetRomPath rp s).endlessLoopMode = s.endlessLoopMode ∧
    (nSetDeviceVolume id vol s).endlessLoopMode = s.endlessLoopMode := by
  refine ⟨?_, ?_, ?_, ?_, ?_, ?_, ?_, ?_, ?_, ?_, ?_, ?_, ?_⟩
  · intro h
    unfold nIsEnded
    rw [h]
    rfl
  · simp only [nSetEndlessLoop]
    (repeat' split) <;> rfl
  · rfl
  · rfl
  · simp only [nOpen, cleanup]
    (repeat' split) <;> rfl
  · simp only [nPlay]
    (repeat' split) <;> rfl
  · simp only [nStop]
    (repeat' split) <;> rfl
  · simp [nSeek, seekAdl_endless, seekMpt_endless, seekGme_endless, seekVgm_endless]
  · simp only [nSetTrack]
    (repeat' split) <;> rfl
  · simp [nSetPlaybackSpeed, setSpeedKss_endless, setSpeedGme_endless, setSpeedVgm_endless]
  · rfl
  · rfl
  · simp only [nSetDeviceVolume]
    (repeat' split) <;> rfl

/-- C8 witness: with the flag set, a backend at native end-of-stream
still reports not-ended. -/
theorem c8_endless_loop_forces_not_ended_witness :
    nIsEnded gmeEndedEndless = false := by
  exact (c8_endless_loop_forces_not_ended gmeEndedEndless envGmeOk "p" "r"
    true 0 0 0 0 1 44100).1 rfl

/-! ## C10 -/

/-- C10: the handle/type consistency invariant - the live handles are
exactly those of the backend named by `gPlayerType`, and none when it is
NONE - holds unconditionally after `cleanup` and after `nOpen` (success
or any failure path), and is preserved by every other modelled
operation. -/
theorem c10_handle_type_invariant (s : EngineState) (env : Env)
    (path rp : String) (b : Bool) (i id vol pos : Int) (sp : Rat) (r : Nat) :
    handlesConsistent (cleanup s) = true ∧
    handlesConsistent (nOpen env path s).2 = true ∧
    (handlesConsistent s = true → handlesConsistent (nClose s) = true) ∧
    (handlesConsistent s = true → handlesConsistent (nPlay s) = true) ∧
    (handlesConsistent s = true → handlesConsistent (nStop s) = true) ∧
    (handlesConsistent s = true → handlesConsistent (nSetEndlessLoop b s) = true) ∧
    (handlesConsistent s = true → handlesConsistent (nSetPlaybackSpeed sp s) = true) ∧
    (handlesConsistent s = true → handlesConsistent (nSetSampleRate r s) = true) ∧
    (handlesConsistent s = true → handlesConsistent (nSetRomPath rp s) = true) ∧
    (handlesConsistent s = true → handlesConsistent (nSeek pos s) = true) ∧
    (handlesConsistent s = true → handlesConsistent ((nSetTrack i s).2) = true) ∧
    (handlesConsistent s = true → handlesConsistent (nSetDeviceVolume id vol s) = true) := by
  refine ⟨?_, ?_, ?_, ?_, ?_, ?_, ?_, ?_, ?_, ?_, ?_, ?_⟩
  · simp [handlesConsistent, handleShape, shapeConsistent]
  · simp only [nOpen]
    (repeat' split) <;> simp_all [handlesConsistent, handleShape, shapeConsistent, freshGme]
  · intro h
    simpa [nClose, handlesConsistent, handleShape, shapeConsistent] using rfl
  · intro h
    unfold handlesConsistent at h ⊢
    rw [nPlay_shape]
    exact h
  · intro h
    unfold handlesConsistent at h ⊢
    rw [nStop_shape]
    exact h
  · intro h
    unfold handlesConsistent at h ⊢
    rw [nSetEndlessLoop_shape]
    exact h
  · intro h
    unfold handlesConsistent at h ⊢
    simp only [nSetPlaybackSpeed]
    rw [setSpeedKss_shape, setSpeedGme_shape, setSpeedVgm_shape]
    exact h
  · intro h
    unfold handlesConsistent at h ⊢
    rw [nSetSampleRate_shape]
    exact h
  · intro h
    exact h
  · intro h
    unfold handlesConsistent at h ⊢
    simp only [nSeek]
    rw [seekAdl_shape, seekMpt_shape, seekGme_shape, seekVgm_shape]
    exact h
  · intro h
    unfold handlesConsistent at h ⊢
    rw [nSetTrack_shape]
    exact h
  · intro h
    unfold handlesConsistent at h ⊢
    rw [nSetDeviceVolume_shape]
    exact h

/-- C10 witness: the invariant holds on the initial state, is preserved
by a transport call there, and holds after a concrete successful open. -/
theorem c10_handle_type_invariant_witness :
    handlesConsistent initState = true ∧
    handlesConsistent (nPlay initState) = true ∧
    handlesConsistent (nOpen envGmeOk "song.nsf" initState).2 = true := by
  have h := c10_handle_type_invariant initState envGmeOk "song.nsf" "r"
    true 0 0 0 0 1 44100
  exact ⟨by decide, h.2.2.2.1 (by decide), h.2.1⟩

end Vgmp
